import Mathlib

/-!
Verification of the Duck Therapy backend orchestration core.

This file gives a shallow embedding, in Lean 4, of the Python code under
`backend/src`: the workflow engine (`services/crew_manager.py`), the agent
envelope (`agents/base_agent.py`), the emotion-analysis agent
(`agents/listener_agent.py`), the persona-styling agent
(`agents/duck_style_agent.py`) and the LLM gateway (`services/llm_service.py`).

Modelling conventions:
* Python `float` values are modelled as `ℚ`, `int` as `ℤ`.
* A Python function that may raise is modelled as returning `Except String α`;
  the error value carries the exception message.
* Heterogeneous `Dict[str, Any]` payloads are modelled by the `Payload`
  structure that records exactly the keys the orchestration core reads
  (`text`, `intensity`, `urgency_level`, `safety_triggered`, `safety_reason`);
  a missing key is `none`, and `dict.get(k, default)` becomes `Option.getD`.
* External collaborators (YAML config loader, LLM backends, the CrewAI agent
  objects) are passed in as explicit parameters, so every theorem quantifies
  over their behaviour.
* Wall-clock readings (`time.time()` differences) enter as an explicit
  `elapsed` parameter; `datetime` metadata fields are omitted since no
  orchestration decision reads them.
-/

/-! ## Python string primitives -/

/-- Python `str.lower()` restricted to the ASCII case mapping, which is all the
analysed code relies on (the Chinese configuration strings are unaffected by
either implementation). -/
def pyLower (s : String) : String := ⟨s.data.map Char.toLower⟩

/-- Python `str.strip()`: remove leading and trailing whitespace. -/
def pyStrip (s : String) : String :=
  ⟨((s.data.dropWhile Char.isWhitespace).reverse.dropWhile Char.isWhitespace).reverse⟩

/-- Boolean prefix test on character lists. -/
def isPrefixB : List Char → List Char → Bool
  | [], _ => true
  | _ :: _, [] => false
  | a :: as, b :: bs => a == b && isPrefixB as bs

/-- Helper for `strContains`: does `needle` occur in the haystack list? -/
def containsSubAux (needle : List Char) : List Char → Bool
  | [] => isPrefixB needle []
  | c :: rest => isPrefixB needle (c :: rest) || containsSubAux needle rest

/-- Python `pat in hay` on strings: substring containment. -/
def strContains (hay pat : String) : Bool := containsSubAux pat.data hay.data

/-- Python `list(set(xs))` where only membership matters downstream:
deduplicate, keeping list form. -/
def pySet (xs : List String) : List String := xs.dedup

/-! ## Sentiment normalization (`ListenerAgent._normalize_sentiment`,
`listener_agent.py` lines 194-224) -/

/-- The positive indicator set from `_normalize_sentiment`. -/
def positiveSentimentValues : List String := ["+", "正面", "积极", "positive", "pos", "good"]

/-- The negative indicator set from `_normalize_sentiment`. -/
def negativeSentimentValues : List String := ["-", "负面", "消极", "negative", "neg", "bad"]

/-- The neutral indicator set from `_normalize_sentiment`. -/
def neutralSentimentValues : List String := ["0", "中性", "neutral", "neu", "平静"]

/-- `ListenerAgent._normalize_sentiment`: empty (falsy) input returns
"neutral"; otherwise the lowercased, stripped value is looked up in the three
indicator sets, defaulting to "neutral". -/
def normalizeSentiment (sentimentRaw : String) : String :=
  if sentimentRaw = "" then "neutral"
  else
    let s := pyStrip (pyLower sentimentRaw)
    if s ∈ positiveSentimentValues then "positive"
    else if s ∈ negativeSentimentValues then "negative"
    else if s ∈ neutralSentimentValues then "neutral"
    else "neutral"

/-- C3: sentiment normalization is total (always one of positive, negative,
neutral) and idempotent; after lowercasing and trimming, members of the
positive set map to "positive", members of the negative set to "negative",
members of the neutral set to "neutral", and every other string to
"neutral". -/
theorem normalizeSentiment_total_idempotent (s : String) :
    normalizeSentiment s ∈ (["positive", "negative", "neutral"] : List String)
    ∧ normalizeSentiment (normalizeSentiment s) = normalizeSentiment s
    ∧ (pyStrip (pyLower s) ∈ positiveSentimentValues → normalizeSentiment s = "positive")
    ∧ (pyStrip (pyLower s) ∈ negativeSentimentValues → normalizeSentiment s = "negative")
    ∧ (pyStrip (pyLower s) ∈ neutralSentimentValues → normalizeSentiment s = "neutral")
    ∧ (pyStrip (pyLower s) ∉ positiveSentimentValues ++ negativeSentimentValues ++ neutralSentimentValues →
        normalizeSentiment s = "neutral") := by
  have hpos : normalizeSentiment "positive" = "positive" := by decide
  have hneg : normalizeSentiment "negative" = "negative" := by decide
  have hneu : normalizeSentiment "neutral" = "neutral" := by decide
  have hdPN : ∀ x ∈ positiveSentimentValues, x ∉ negativeSentimentValues := by decide
  have hdPU : ∀ x ∈ positiveSentimentValues, x ∉ neutralSentimentValues := by decide
  have hdNU : ∀ x ∈ negativeSentimentValues, x ∉ neutralSentimentValues := by decide
  by_cases h0 : s = ""
  · subst h0
    refine ⟨by decide, by decide, ?_, ?_, ?_, fun _ => by decide⟩ <;>
      · intro hmem
        exact absurd hmem (by decide)
  · unfold normalizeSentiment
    rw [if_neg h0]
    by_cases h1 : pyStrip (pyLower s) ∈ positiveSentimentValues
    · rw [if_pos h1]
      refine ⟨by decide, hpos, fun _ => rfl, ?_, ?_, ?_⟩
      · intro h2; exact absurd h2 (hdPN _ h1)
      · intro h2; exact absurd h2 (hdPU _ h1)
      · intro h2
        exact absurd h1 (fun hx => h2 (List.mem_append.mpr (Or.inl (List.mem_append.mpr (Or.inl hx)))))
    · rw [if_neg h1]
      by_cases h2 : pyStrip (pyLower s) ∈ negativeSentimentValues
      · rw [if_pos h2]
        refine ⟨by decide, hneg, fun hx => absurd hx h1, fun _ => rfl, ?_, ?_⟩
        · intro h3; exact absurd h3 (hdNU _ h2)
        · intro h3
          exact absurd h2 (fun hx => h3 (List.mem_append.mpr (Or.inl (List.mem_append.mpr (Or.inr hx)))))
      · rw [if_neg h2]
        by_cases h3 : pyStrip (pyLower s) ∈ neutralSentimentValues
        · rw [if_pos h3]
          exact ⟨by decide, hneu, fun hx => absurd hx h1, fun hx => absurd hx h2,
            fun _ => rfl, fun _ => rfl⟩
        · rw [if_neg h3]
          exact ⟨by decide, hneu, fun hx => absurd hx h1, fun hx => absurd hx h2,
            fun hx => absurd hx h3, fun _ => rfl⟩

/-- Witness for C3 at concrete inputs: "POS" normalizes to "positive" and
"garbage123" to "neutral". -/
theorem normalizeSentiment_total_idempotent_witness :
    normalizeSentiment "POS" = "positive" ∧ normalizeSentiment "garbage123" = "neutral" :=
  ⟨(normalizeSentiment_total_idempotent "POS").2.2.1 (by decide),
   (normalizeSentiment_total_idempotent "garbage123").2.2.2.2.2 (by decide)⟩

/-! ## Data model (`crew_manager.py` lines 24-52, `base_agent.py` lines 21-42,
`models/emotion.py`) -/

/-- `WorkflowStatus` enum from `crew_manager.py`. -/
inductive WorkflowStatus where
  | pending
  | running
  | completed
  | failed
  | partiallyCompleted
  deriving DecidableEq, Repr

/-- Model of the heterogeneous `Dict[str, Any]` payloads passed between agents
and the workflow engine, restricted to the keys the orchestration core reads.
A `none` field is an absent key. -/
structure Payload where
  text : Option String
  intensity : Option ℚ
  urgency_level : Option ℤ
  safety_triggered : Option Bool
  safety_reason : Option String
  deriving DecidableEq, Repr

/-- The empty dict `{}`. -/
def Payload.empty : Payload := ⟨none, none, none, none, none⟩

/-- `TaskResult` from `crew_manager.py` lines 33-41. -/
structure TaskResult where
  task_name : String
  success : Bool
  data : Option Payload
  error : Option String
  execution_time_ms : ℤ
  agent_used : String
  llm_provider_used : Option String
  deriving DecidableEq, Repr

/-- `BaseAgentOutput` from `base_agent.py` lines 31-42 (the spec's
`AgentResult`). -/
structure BaseAgentOutput where
  success : Bool
  agent_name : String
  data : Option Payload
  error : Option String
  processing_time_ms : Option ℤ
  llm_provider_used : Option String
  deriving DecidableEq, Repr

/-- The `final_output` dict built by the chat flows (`crew_manager.py`
lines 200-204 and 304-310). -/
structure FinalOutput where
  response_text : String
  emotion_analysis : Option Payload
  content_recommendations : Option Payload
  therapy_suggestions : Option Payload
  workflow_type : String
  deriving DecidableEq, Repr

/-- `WorkflowResult` from `crew_manager.py` lines 44-52. -/
structure WorkflowResult where
  workflow_name : String
  status : WorkflowStatus
  task_results : List TaskResult
  total_execution_time_ms : ℤ
  success_rate : ℚ
  final_output : Option FinalOutput
  error : Option String
  deriving DecidableEq, Repr

/-- `EmotionAnalysis` from `models/emotion.py` (the `analyzed_at` timestamp is
omitted; no orchestration decision reads it). -/
structure EmotionAnalysis where
  sentiment : String
  intensity : ℚ
  confidence : ℚ
  primary_emotions : List String
  secondary_emotions : List String
  keywords : List String
  topics : List String
  language_style : Option String
  psychological_needs : List String
  urgency_level : ℤ
  support_type : Option String
  processing_notes : Option String
  deriving DecidableEq, Repr

/-! ## Listener agent configuration and rule-based analysis
(`listener_agent.py` lines 44-61 and 226-338) -/

/-- The YAML-driven configuration of `ListenerAgent`, with the `dict.get`
defaults of `_rule_based_analysis` already resolved into plain fields (the
theorems quantify over all values, which subsumes both the configured and the
defaulted case). -/
structure ListenerConfig where
  emotion_keywords : List (String × List String)
  positive_indicators : List String
  negative_indicators : List String
  default_intensity : ℚ
  punctuation_boost : List (String × ℚ)
  multiple_emotions_boost : ℚ
  max_intensity : ℚ
  urgency_normal : ℤ
  urgency_crisis : ℤ
  urgency_high : ℤ
  urgency_medium : ℤ
  crisis_keywords : List String
  high_urgency_keywords : List String
  confidence_level : ℚ
  default_emotions : List String
  default_topics : List String
  needs_mapping : List (String × List String)
  support_mapping : List (String × String)
  processing_note : String

/-- `ListenerAgent._assess_needs` (lines 309-324): collect the configured
needs for each detected emotion, add the sentiment-based general needs, and
deduplicate. -/
def assessNeeds (cfg : ListenerConfig) (emotions : List String) (sentiment : String) : List String :=
  let needs := emotions.foldl (fun acc e => acc ++ ((cfg.needs_mapping.lookup e).getD [])) []
  let needs :=
    if sentiment = "positive" ∧ (cfg.needs_mapping.lookup "positive_general").isSome then
      needs ++ (cfg.needs_mapping.lookup "positive_general").getD []
    else if sentiment = "negative" ∧ needs = [] ∧ (cfg.needs_mapping.lookup "negative_general").isSome then
      needs ++ (cfg.needs_mapping.lookup "negative_general").getD []
    else needs
  pySet needs

/-- `ListenerAgent._determine_support_type` (lines 326-338): first matching
emotion wins, then the sentiment, then the configured default. -/
def determineSupportType (cfg : ListenerConfig) (sentiment : String) (emotions : List String) : String :=
  match emotions.findSome? (fun e => cfg.support_mapping.lookup e) with
  | some t => t
  | none =>
    match cfg.support_mapping.lookup sentiment with
    | some t => t
    | none => (cfg.support_mapping.lookup "default").getD "general_support"

/-- `ListenerAgent._rule_based_analysis` (lines 226-307): keyword-table emotion
detection, indicator-count sentiment, punctuation/emotion-count intensity
boosts capped at `max_intensity`, and keyword-list urgency assessment. -/
def ruleBasedAnalysis (cfg : ListenerConfig) (text : String) : EmotionAnalysis :=
  let textLower := pyLower text
  let detectedEmotions :=
    (cfg.emotion_keywords.filter
      (fun ek => 0 < (ek.2.filter (fun kw => strContains textLower kw)).length)).map Prod.fst
  let positiveScore := (cfg.positive_indicators.filter (fun i => strContains textLower i)).length
  let negativeScore := (cfg.negative_indicators.filter (fun i => strContains textLower i)).length
  let sentiment :=
    if positiveScore > negativeScore then "positive"
    else if negativeScore > positiveScore then "negative"
    else "neutral"
  let intensity := cfg.default_intensity
  let intensity := cfg.punctuation_boost.foldl
    (fun acc cb => if strContains text cb.1 then acc + cb.2 else acc) intensity
  let intensity :=
    if detectedEmotions.length > 2 then intensity + cfg.multiple_emotions_boost else intensity
  let intensity := min intensity cfg.max_intensity
  let urgencyLevel :=
    if cfg.crisis_keywords.any (fun kw => strContains textLower kw) then cfg.urgency_crisis
    else if cfg.high_urgency_keywords.any (fun w => strContains textLower w) then cfg.urgency_high
    else if sentiment = "negative" ∧ intensity > 7/10 then cfg.urgency_medium
    else cfg.urgency_normal
  let keywords := detectedEmotions.foldl
    (fun acc e => acc ++ ((cfg.emotion_keywords.lookup e).getD []).filter
      (fun kw => strContains textLower kw)) []
  { sentiment := sentiment
    intensity := intensity
    confidence := cfg.confidence_level
    primary_emotions := if detectedEmotions ≠ [] then detectedEmotions.take 2 else cfg.default_emotions
    secondary_emotions := if detectedEmotions.length > 2 then detectedEmotions.drop 2 else []
    keywords := pySet keywords
    topics := cfg.default_topics
    language_style := none
    psychological_needs := assessNeeds cfg detectedEmotions sentiment
    urgency_level := urgencyLevel
    support_type := some (determineSupportType cfg sentiment detectedEmotions)
    processing_notes := some cfg.processing_note }

/-! ## Model-result parsing and merge (`listener_agent.py` lines 126-192) -/

/-- Model of `parsed_data`, the dict extracted from the LLM response in
`_parse_and_enhance_analysis`; each field is `some v` when the model produced
that key and `none` otherwise, so `parsed_data.get(k, default)` is
`Option.getD`. -/
structure ParsedData where
  sentiment : Option String
  intensity : Option ℚ
  confidence : Option ℚ
  primary_emotions : Option (List String)
  secondary_emotions : Option (List String)
  keywords : Option (List String)
  topics : Option (List String)
  psychological_needs : Option (List String)
  urgency_level : Option ℤ
  support_type : Option String
  deriving Repr

/-- The merge step of `ListenerAgent._parse_and_enhance_analysis`
(lines 157-192): sentiment is the normalized model value defaulting to the
rule result, `intensity` and `urgency_level` take the max of the two sources,
`primary_emotions` and `keywords` take the deduplicated concatenation. -/
def parseAndEnhanceMerge (pd : ParsedData) (rule : EmotionAnalysis) (analysisDepth : String) :
    EmotionAnalysis :=
  { sentiment := normalizeSentiment (pd.sentiment.getD rule.sentiment)
    intensity := max (pd.intensity.getD (1/2)) rule.intensity
    confidence := pd.confidence.getD (4/5)
    primary_emotions := pySet (pd.primary_emotions.getD [] ++ rule.primary_emotions)
    secondary_emotions := pd.secondary_emotions.getD []
    keywords := pySet (pd.keywords.getD [] ++ rule.keywords)
    topics := pd.topics.getD []
    language_style := none
    psychological_needs := pd.psychological_needs.getD []
    urgency_level := max (pd.urgency_level.getD 1) rule.urgency_level
    support_type := pd.support_type
    processing_notes :=
      some ("Combined LLM and rule-based analysis (depth: " ++ analysisDepth ++ ")") }

/-- C5: when the model parse supplies `intensity`, `urgency_level`,
`primary_emotions` and `keywords`, the merged analysis has intensity and
urgency at least both sources' values, and its `primary_emotions` and
`keywords` contain the union of the two sources as sets. -/
theorem parseAndEnhanceMerge_monotone (cfg : ListenerConfig) (text analysisDepth : String)
    (pd : ParsedData) (mi : ℚ) (mu : ℤ) (me mk : List String)
    (hi : pd.intensity = some mi) (hu : pd.urgency_level = some mu)
    (he : pd.primary_emotions = some me) (hk : pd.keywords = some mk) :
    let rule := ruleBasedAnalysis cfg text
    let merged := parseAndEnhanceMerge pd rule analysisDepth
    mi ≤ merged.intensity ∧ rule.intensity ≤ merged.intensity
    ∧ mu ≤ merged.urgency_level ∧ rule.urgency_level ≤ merged.urgency_level
    ∧ (∀ e, e ∈ me ∨ e ∈ rule.primary_emotions → e ∈ merged.primary_emotions)
    ∧ (∀ k, k ∈ mk ∨ k ∈ rule.keywords → k ∈ merged.keywords) := by
  intro rule merged
  refine ⟨?_, ?_, ?_, ?_, ?_, ?_⟩
  · show mi ≤ max (pd.intensity.getD (1/2)) rule.intensity
    rw [hi]
    exact le_max_left _ _
  · exact le_max_right _ _
  · show mu ≤ max (pd.urgency_level.getD 1) rule.urgency_level
    rw [hu]
    exact le_max_left _ _
  · exact le_max_right _ _
  · intro e hmem
    show e ∈ pySet (pd.primary_emotions.getD [] ++ rule.primary_emotions)
    rw [he]
    exact List.mem_dedup.mpr (List.mem_append.mpr hmem)
  · intro k hmem
    show k ∈ pySet (pd.keywords.getD [] ++ rule.keywords)
    rw [hk]
    exact List.mem_dedup.mpr (List.mem_append.mpr hmem)

/-! ## Persona-styling agent (`duck_style_agent.py`) -/

/-- The safety configuration loaded by `DuckStyleAgent._load_safety_patterns`
(lines 60-67): the two ordered regex-fragment lists and the
`safety_responses` entries read by `_check_content_safety`
(`safety_responses["crisis"]` and `safety_responses["medical"]`). -/
structure SafetyConfig where
  inappropriate_patterns : List String
  medical_patterns : List String
  crisis_response : String
  medical_response : String

/-- Result dict of `_check_content_safety`: either
`{"has_issues": True, "reason": r, "response": resp}` or
`{"has_issues": False}`. -/
inductive SafetyCheckResult where
  | issue (reason : String) (response : String)
  | clean
  deriving DecidableEq, Repr

/-- `DuckStyleAgent._check_content_safety` (lines 157-187): the lowercased text
is scanned first against the crisis/inappropriate patterns, then against the
medical patterns; the first matching pattern returns. Regex matching
(`re.search`) is abstracted as the parameter `reSearch pattern text`. -/
def checkContentSafety (reSearch : String → String → Bool) (cfg : SafetyConfig)
    (text : String) : SafetyCheckResult :=
  let textLower := pyLower text
  match cfg.inappropriate_patterns.find? (fun p => reSearch p textLower) with
  | some _ => SafetyCheckResult.issue "crisis_content" cfg.crisis_response
  | none =>
    match cfg.medical_patterns.find? (fun p => reSearch p textLower) with
    | some _ => SafetyCheckResult.issue "medical_content" cfg.medical_response
    | none => SafetyCheckResult.clean

/-- `DuckStyleAgent.process` (lines 69-155). The safety gate (lines 80-91) is
embedded exactly; the rest of the method (template lookup, LLM generation,
response enhancement, fallback) is the oracle `llmPipeline`, whose second
component counts the LLM gateway calls it performs. The function returns the
agent output paired with the number of LLM calls made. -/
def duckStyleProcess (reSearch : String → String → Bool) (cfg : SafetyConfig)
    (agentName : String) (llmPipeline : Unit → BaseAgentOutput × Nat)
    (userMessage : String) : BaseAgentOutput × Nat :=
  match checkContentSafety reSearch cfg userMessage with
  | SafetyCheckResult.issue reason response =>
    ({ success := true
       agent_name := agentName
       data := some { Payload.empty with
         text := some response
         safety_triggered := some true
         safety_reason := some reason }
       error := none
       processing_time_ms := none
       llm_provider_used := none }, 0)
  | SafetyCheckResult.clean => llmPipeline ()

/-- C2: an input matching any crisis/inappropriate pattern makes `process`
return the configured crisis response tagged `safety_triggered` with reason
`crisis_content`, with zero LLM calls, regardless of the medical patterns
(crisis group checked first); and if no crisis pattern matches but a medical
pattern does, the medical response short-circuits the same way. -/
theorem duckStyleProcess_safety_gate (reSearch : String → String → Bool)
    (cfg : SafetyConfig) (agentName : String) (llmPipeline : Unit → BaseAgentOutput × Nat)
    (userMessage : String) :
    ((∃ p ∈ cfg.inappropriate_patterns, reSearch p (pyLower userMessage) = true) →
      duckStyleProcess reSearch cfg agentName llmPipeline userMessage =
        ({ success := true
           agent_name := agentName
           data := some { Payload.empty with
             text := some cfg.crisis_response
             safety_triggered := some true
             safety_reason := some "crisis_content" }
           error := none
           processing_time_ms := none
           llm_provider_used := none }, 0))
    ∧ ((∀ p ∈ cfg.inappropriate_patterns, reSearch p (pyLower userMessage) = false) →
       (∃ p ∈ cfg.medical_patterns, reSearch p (pyLower userMessage) = true) →
      duckStyleProcess reSearch cfg agentName llmPipeline userMessage =
        ({ success := true
           agent_name := agentName
           data := some { Payload.empty with
             text := some cfg.medical_response
             safety_triggered := some true
             safety_reason := some "medical_content" }
           error := none
           processing_time_ms := none
           llm_provider_used := none }, 0)) := by
  constructor
  · intro hmatch
    have hsome : (cfg.inappropriate_patterns.find? (fun p => reSearch p (pyLower userMessage))).isSome :=
      List.find?_isSome.mpr hmatch
    unfold duckStyleProcess checkContentSafety
    cases hfind : cfg.inappropriate_patterns.find? (fun p => reSearch p (pyLower userMessage)) with
    | none => rw [hfind] at hsome; simp at hsome
    | some q => simp only [hfind]
  · intro hnone hmed
    have hfindnone : cfg.inappropriate_patterns.find? (fun p => reSearch p (pyLower userMessage)) = none :=
      List.find?_eq_none.mpr (fun p hp => by simp [hnone p hp])
    have hsome : (cfg.medical_patterns.find? (fun p => reSearch p (pyLower userMessage))).isSome :=
      List.find?_isSome.mpr hmed
    unfold duckStyleProcess checkContentSafety
    cases hfind : cfg.medical_patterns.find? (fun p => reSearch p (pyLower userMessage)) with
    | none => rw [hfind] at hsome; simp at hsome
    | some q => simp only [hfindnone, hfind]

/-- Witness for C2: with substring matching, pattern list ["自杀"] and message
"我想自杀", the process returns the crisis response with zero LLM calls. -/
theorem duckStyleProcess_safety_gate_witness :
    duckStyleProcess (fun p t => strContains t p)
      { inappropriate_patterns := ["自杀"], medical_patterns := ["药物"],
        crisis_response := "请立即联系危机干预热线", medical_response := "请咨询专业医生" }
      "duck_style_agent" (fun _ => (⟨true, "duck_style_agent", none, none, none, none⟩, 1))
      "我想自杀" =
    ({ success := true
       agent_name := "duck_style_agent"
       data := some { Payload.empty with
         text := some "请立即联系危机干预热线"
         safety_triggered := some true
         safety_reason := some "crisis_content" }
       error := none
       processing_time_ms := none
       llm_provider_used := none }, 0) :=
  (duckStyleProcess_safety_gate (fun p t => strContains t p)
    { inappropriate_patterns := ["自杀"], medical_patterns := ["药物"],
      crisis_response := "请立即联系危机干预热线", medical_response := "请咨询专业医生" }
    "duck_style_agent" (fun _ => (⟨true, "duck_style_agent", none, none, none, none⟩, 1))
    "我想自杀").1 ⟨"自杀", by decide, by decide⟩

/-! ## The "brief" style transform (`DuckStyleAgent._make_response_brief`,
lines 286-293) -/

/-- Python `response.split("。")`: split a character list at every `。`,
keeping empty segments (so a trailing `。` yields a trailing empty
segment). -/
def splitSentencesAux : List Char → List Char → List (List Char)
  | [], acc => [acc.reverse]
  | c :: rest, acc =>
    if c = '。' then acc.reverse :: splitSentencesAux rest [] else splitSentencesAux rest (c :: acc)

/-- `DuckStyleAgent._make_response_brief`: split on `。`; with more than two
segments, evaluate the Python expression
`sentences[0] + "。" + sentences[-1] if sentences[-1] else ""`, which by
operator precedence returns the empty string whenever the last segment is
empty (i.e. whenever the response ends with `。`). -/
def makeResponseBrief (response : String) : String :=
  let sentences := (splitSentencesAux response.data []).map (fun l => (⟨l⟩ : String))
  if sentences.length > 2 then
    if sentences.getLastD "" ≠ "" then
      sentences.headD "" ++ "。" ++ sentences.getLastD ""
    else ""
  else response

/-- C9 (code bug): for a three-or-more-segment response that ends with `。`
(every well-formed Chinese response does), the brief transform returns the
empty string rather than the first and last sentence; in particular the
two-sentence response "今天很开心。谢谢你。", which the claim says is
returned unchanged, is wiped to "". -/
theorem makeResponseBrief_trailing_period_empty :
    makeResponseBrief "今天很开心。谢谢你。" = ""
    ∧ makeResponseBrief "嘎嘎。今天天气不错。鸭鸭陪你。" = ""
    ∧ makeResponseBrief "嘎嘎。今天天气不错。鸭鸭陪你" = "嘎嘎。鸭鸭陪你" := by
  refine ⟨by decide, by decide, by decide⟩

/-! ## Agent envelope (`base_agent.py` lines 195-207 and 279-340) -/

/-- `BaseAgent._validate_input` (lines 195-207): Python falsiness of
`session_id`, i.e. the empty string fails validation. -/
def validateInput (sessionId : String) : Bool := !(sessionId == "")

/-- The provider-inference block of `safe_process` (lines 308-321): classify
the agent's model identifier string by substring match, falling back to
parsing a "provider/model"-shaped string. `modelStr` is `none` when the
`hasattr` guards fail. -/
def inferProvider (modelStr : Option String) (result : BaseAgentOutput) : BaseAgentOutput :=
  match modelStr with
  | none => result
  | some m =>
    let ms := pyLower m
    if strContains ms "openai/" || strContains ms "gpt" then
      { result with llm_provider_used := some "openai" }
    else if strContains ms "anthropic/" || strContains ms "claude" then
      { result with llm_provider_used := some "anthropic" }
    else if strContains ms "ollama/" then
      { result with llm_provider_used := some "ollama" }
    else if strContains ms "/" then
      { result with llm_provider_used := some (⟨ms.data.takeWhile (fun c => c ≠ '/')⟩ : String) }
    else result

/-- `BaseAgent.safe_process` (lines 279-340). The subclass `process` method is
the oracle `proc`: `Except.error e` models `process` raising an exception with
message `e`, `Except.ok r` a normal return. The second component of the result
records whether `process` was invoked. The whole body is wrapped in
`try/except`, so the function is total: no exception escapes. -/
def safeProcess (agentName : String) (modelStr : Option String) (sessionId : String)
    (proc : Except String BaseAgentOutput) (elapsed : ℤ) : BaseAgentOutput × Bool :=
  if !(validateInput sessionId) then
    ({ success := false
       agent_name := agentName
       data := none
       error := some "Invalid input data"
       processing_time_ms := some elapsed
       llm_provider_used := none }, false)
  else
    match proc with
    | Except.error e =>
      ({ success := false
         agent_name := agentName
         data := none
         error := some e
         processing_time_ms := some elapsed
         llm_provider_used := none }, true)
    | Except.ok r =>
      (inferProvider modelStr { r with processing_time_ms := some elapsed, agent_name := agentName },
        true)

/-- C4: `safe_process` never lets an exception escape (it is a total function
into `BaseAgentOutput`): an empty session id yields a failure result without
invoking `process`, and a raising `process` is converted into a
`success = false` result carrying the exception message. -/
theorem safeProcess_never_raises (agentName : String) (modelStr : Option String)
    (sessionId : String) (proc : Except String BaseAgentOutput) (elapsed : ℤ) :
    (sessionId = "" →
      safeProcess agentName modelStr sessionId proc elapsed =
        ({ success := false
           agent_name := agentName
           data := none
           error := some "Invalid input data"
           processing_time_ms := some elapsed
           llm_provider_used := none }, false))
    ∧ (∀ e, sessionId ≠ "" → proc = Except.error e →
      safeProcess agentName modelStr sessionId proc elapsed =
        ({ success := false
           agent_name := agentName
           data := none
           error := some e
           processing_time_ms := some elapsed
           llm_provider_used := none }, true)) := by
  constructor
  · intro h0
    subst h0
    rfl
  · intro e hne hproc
    subst hproc
    unfold safeProcess
    rw [if_neg]
    simp only [validateInput, Bool.not_not, beq_iff_eq]
    simpa using hne

/-- Witness for C4: an empty session id short-circuits before `process`, and a
raising `process` with a non-empty session id becomes a failure result. -/
theorem safeProcess_never_raises_witness :
    safeProcess "listener_agent" none "" (Except.ok ⟨true, "listener_agent", none, none, none, none⟩) 4 =
      ({ success := false
         agent_name := "listener_agent"
         data := none
         error := some "Invalid input data"
         processing_time_ms := some 4
         llm_provider_used := none }, false)
    ∧ safeProcess "listener_agent" none "sess-1" (Except.error "boom") 9 =
      ({ success := false
         agent_name := "listener_agent"
         data := none
         error := some "boom"
         processing_time_ms := some 9
         llm_provider_used := none }, true) :=
  ⟨(safeProcess_never_raises "listener_agent" none ""
      (Except.ok ⟨true, "listener_agent", none, none, none, none⟩) 4).1 rfl,
   (safeProcess_never_raises "listener_agent" none "sess-1" (Except.error "boom") 9).2
      "boom" (by decide) rfl⟩

/-! ## LLM gateway (`llm_service.py`) -/

/-- The settings fields read by `LLMService` (`config/settings.py` lines
36-39). `fallback` is `Optional`, and Python's truthiness test on it is
modelled by `Option.isSome` (the `Literal` type excludes the empty string). -/
structure LLMSettings where
  primary : String
  fallback : Option String
  enableFallback : Bool

/-- `LLMService._get_fallback_order` (lines 95-109): the static per-provider
fallback chains. -/
def getFallbackOrder (requestedProvider : String) : List String :=
  if requestedProvider = "openai" then ["anthropic", "ollama"]
  else if requestedProvider = "anthropic" then ["openai", "ollama"]
  else if requestedProvider = "ollama" then ["openai", "anthropic"]
  else ["openai", "anthropic", "ollama"]

/-- `LLMService.get_llm` (lines 72-93): `instances` is the key set of
`_llm_instances` and `health p` is `_health_status.get(p, False)`; the
returned provider key stands for the returned LLM instance. -/
def getLLM (instances : List String) (health : String → Bool) (st : LLMSettings)
    (provider : Option String) : Option String :=
  let p := provider.getD st.primary
  if instances.contains p && health p then some p
  else if st.enableFallback then
    (getFallbackOrder p).find? (fun f => instances.contains f && health f)
  else none

/-- One backend attempt with no retry: resolve the provider and call it once,
converting an exception to `none`. Used to state that the recursive fallback
call inside `generate_response` performs exactly one further attempt. -/
def singleAttempt (instances : List String) (health : String → Bool) (st : LLMSettings)
    (callLLM : String → Except String String) (provider : Option String) : Option String :=
  match getLLM instances health st provider with
  | none => none
  | some llm =>
    match callLLM llm with
    | Except.ok response => some response
    | Except.error _ => none

/-- `LLMService.generate_response` (lines 111-144). `callLLM` is the backend
`llm.call` (`Except.error` models a raised exception). The `fuel` argument
bounds the recursion depth of the Python self-call; any `fuel ≥ 2` is enough
to reproduce it exactly, since the retry branch is taken at most once. -/
def generateResponse (instances : List String) (health : String → Bool) (st : LLMSettings)
    (callLLM : String → Except String String) : Nat → Option String → Option String
  | 0, _ => none
  | Nat.succ fuel, provider =>
    match getLLM instances health st provider with
    | none => none
    | some llm =>
      match callLLM llm with
      | Except.ok response => some response
      | Except.error _ =>
        if st.enableFallback ∧ provider = some st.primary then
          match st.fallback with
          | some fb =>
            if some fb ≠ provider then
              generateResponse instances health st callLLM fuel (some fb)
            else none
          | none => none
        else none

/-- Helper for C8: when the provider argument is not the primary provider, a
backend exception is never retried: the call is a single attempt. -/
theorem generateResponse_nonprimary (instances : List String) (health : String → Bool)
    (st : LLMSettings) (callLLM : String → Except String String) (fuel : Nat)
    (provider : Option String) (hp : provider ≠ some st.primary) :
    generateResponse instances health st callLLM (fuel + 1) provider =
      singleAttempt instances health st callLLM provider := by
  unfold generateResponse singleAttempt
  cases hg : getLLM instances health st provider with
  | none => rfl
  | some llm =>
    simp only
    cases hc : callLLM llm with
    | ok response => rfl
    | error e =>
      simp only
      rw [if_neg]
      intro hcond
      exact hp hcond.2

/-- C8: `generate_response` converts backend exceptions to `null` and retries
exactly once, against the single configured fallback provider, and only when
the provider argument is the primary configured provider; when the retry is
not taken, or the retried attempt fails as well, the result is `null`. -/
theorem generateResponse_single_fallback_retry (instances : List String)
    (health : String → Bool) (st : LLMSettings) (callLLM : String → Except String String)
    (provider : Option String) (fuel : Nat) (llm e : String)
    (hfuel : 2 ≤ fuel)
    (hget : getLLM instances health st provider = some llm)
    (hcall : callLLM llm = Except.error e) :
    generateResponse instances health st callLLM fuel provider =
      (if st.enableFallback ∧ provider = some st.primary then
        match st.fallback with
        | some fb =>
          if some fb ≠ provider then
            singleAttempt instances health st callLLM (some fb)
          else none
        | none => none
      else none) := by
  match fuel, hfuel with
  | Nat.succ (Nat.succ m), _ =>
    show generateResponse instances health st callLLM (m + 1 + 1) provider = _
    unfold generateResponse
    simp only [hget, hcall]
    by_cases hcond : st.enableFallback ∧ provider = some st.primary
    · rw [if_pos hcond, if_pos hcond]
      cases st.fallback with
      | none => rfl
      | some fb =>
        simp only
        by_cases hne : some fb ≠ provider
        · rw [if_pos hne, if_pos hne]
          exact generateResponse_nonprimary instances health st callLLM m (some fb)
            (fun hx => hne (hx.trans hcond.2.symm))
        · rw [if_neg hne, if_neg hne]
    · rw [if_neg hcond, if_neg hcond]

/-- Witness for C8: with `ollama` primary and `openai` the configured
fallback, an `ollama` backend exception is retried once against `openai` and
its answer is returned. -/
theorem generateResponse_single_fallback_retry_witness :
    generateResponse ["ollama", "openai"] (fun _ => true)
      { primary := "ollama", fallback := some "openai", enableFallback := true }
      (fun p => if p = "ollama" then Except.error "connection refused" else Except.ok "hello")
      2 (some "ollama") = some "hello" :=
  (generateResponse_single_fallback_retry ["ollama", "openai"] (fun _ => true)
    { primary := "ollama", fallback := some "openai", enableFallback := true }
    (fun p => if p = "ollama" then Except.error "connection refused" else Except.ok "hello")
    (some "ollama") 2 "ollama" "connection refused" (by decide) rfl rfl).trans
    (by decide)

/-! ## Workflow engine (`crew_manager.py` lines 88-413) -/

/-- `CrewManager._execute_task` (lines 362-413). `registry agentName` is
`self.agents.get(agentName)` combined with the agent's `safe_process` output
for the ambient input: `none` models a missing registry entry, `some out` the
(total, by `safeProcess_never_raises`) result of `safe_process`. A missing
agent raises `ValueError(f"Agent '{agent_name}' not found")`, which the
method's own `except` converts into a failed `TaskResult`. -/
def executeTask (registry : String → Option BaseAgentOutput) (taskName agentName : String)
    (elapsed : ℤ) : TaskResult :=
  match registry agentName with
  | none =>
    { task_name := taskName
      success := false
      data := none
      error := some ("Agent '" ++ agentName ++ "' not found")
      execution_time_ms := elapsed
      agent_used := agentName
      llm_provider_used := none }
  | some result =>
    { task_name := taskName
      success := result.success
      data := result.data
      error := result.error
      execution_time_ms := elapsed
      agent_used := agentName
      llm_provider_used := result.llm_provider_used }

/-- C10: `_execute_task` is total — it always returns a `TaskResult` — and
when the agent name is missing from the registry it returns a failed result
with the exact error string, the requested agent name in `agent_used`, and
the execution time set; otherwise it wraps the agent's result. -/
theorem executeTask_total_agent_not_found (registry : String → Option BaseAgentOutput)
    (taskName agentName : String) (elapsed : ℤ) :
    (registry agentName = none →
      executeTask registry taskName agentName elapsed =
        { task_name := taskName
          success := false
          data := none
          error := some ("Agent '" ++ agentName ++ "' not found")
          execution_time_ms := elapsed
          agent_used := agentName
          llm_provider_used := none })
    ∧ (∀ out, registry agentName = some out →
      executeTask registry taskName agentName elapsed =
        { task_name := taskName
          success := out.success
          data := out.data
          error := out.error
          execution_time_ms := elapsed
          agent_used := agentName
          llm_provider_used := out.llm_provider_used }) := by
  constructor
  · intro h
    unfold executeTask
    rw [h]
  · intro out h
    unfold executeTask
    rw [h]

/-- Witness for C10: an empty registry yields the "Agent 'x' not found"
failure, a populated one wraps the agent output. -/
theorem executeTask_total_agent_not_found_witness :
    executeTask (fun _ => none) "emotion_analysis" "listener_agent" 12 =
      { task_name := "emotion_analysis"
        success := false
        data := none
        error := some "Agent 'listener_agent' not found"
        execution_time_ms := 12
        agent_used := "listener_agent"
        llm_provider_used := none }
    ∧ executeTask (fun _ => some ⟨true, "listener_agent", some Payload.empty, none, some 3, some "ollama"⟩)
        "emotion_analysis" "listener_agent" 12 =
      { task_name := "emotion_analysis"
        success := true
        data := some Payload.empty
        error := none
        execution_time_ms := 12
        agent_used := "listener_agent"
        llm_provider_used := some "ollama" } :=
  ⟨(executeTask_total_agent_not_found (fun _ => none) "emotion_analysis" "listener_agent" 12).1 rfl,
   (executeTask_total_agent_not_found
      (fun _ => some ⟨true, "listener_agent", some Payload.empty, none, some 3, some "ollama"⟩)
      "emotion_analysis" "listener_agent" 12).2
      ⟨true, "listener_agent", some Payload.empty, none, some 3, some "ollama"⟩ rfl⟩

/-! ## Chat flows (`crew_manager.py` lines 157-360). The flows are
parameterized by the oracle `execTask taskName agentName`, the behaviour of
`self._execute_task` for the ambient input payloads (which the dispatch logic
never inspects beyond what is modelled below). -/

/-- `_execute_basic_chat_flow` (lines 157-213): emotion analysis, then duck
response; `final_output` is built from the duck step's data when it
succeeded (`duck_task_result.data.get("text", "")` raises `AttributeError`
when `data` is `None`, modelled by `Except.error`). -/
def executeBasicChatFlow (execTask : String → String → TaskResult) :
    Except String WorkflowResult :=
  let emotionResult := execTask "emotion_analysis" "listener_agent"
  let duckResult := execTask "duck_response_generation" "duck_style_agent"
  match (if duckResult.success then
      match duckResult.data with
      | some d =>
        Except.ok (some
          { response_text := d.text.getD ""
            emotion_analysis := if emotionResult.success then emotionResult.data else none
            content_recommendations := none
            therapy_suggestions := none
            workflow_type := "basic_chat" })
      | none => Except.error "AttributeError: 'NoneType' object has no attribute 'get'"
    else Except.ok none) with
  | Except.error e => Except.error e
  | Except.ok finalOutput =>
    Except.ok
      { workflow_name := "basic_chat_flow"
        status := WorkflowStatus.running
        task_results := [emotionResult, duckResult]
        total_execution_time_ms := 0
        success_rate := 0
        final_output := finalOutput
        error := none }

/-- Lines 255-257 of `_execute_enhanced_chat_flow`:
`emotion_data = emotion_task_result.data if emotion_task_result.success else {}`,
where a successful result whose `data` is `None` raises `AttributeError` at
the subsequent `.get`. -/
def enhancedEmotionData (emotionResult : TaskResult) : Except String Payload :=
  if emotionResult.success then
    match emotionResult.data with
    | some d => Except.ok d
    | none => Except.error "AttributeError: 'NoneType' object has no attribute 'get'"
  else Except.ok Payload.empty

/-- The intensity value the enhanced flow's therapy gate reads:
`emotion_data.get("intensity", 0)` with `emotion_data` as above. -/
def enhancedIntensity (emotionResult : TaskResult) : ℚ :=
  ((if emotionResult.success then emotionResult.data.getD Payload.empty
    else Payload.empty).intensity).getD 0

/-- The parallel dispatch list of `_execute_enhanced_chat_flow`
(lines 237-270): the content-recommendation step is queued when the emotion
step succeeded, then the therapy-suggestion step when the intensity read from
the emotion data exceeds the hard-coded `0.6`. -/
def enhancedDispatchList (emotionResult : TaskResult) : List (String × String) :=
  (if emotionResult.success then [("content_recommendation", "content_recall_agent")] else [])
  ++ (if enhancedIntensity emotionResult > 6/10 then
        [("therapy_suggestion", "therapy_tips_agent")] else [])

/-- The parallel dispatch computation as the source performs it, including the
possible `AttributeError` from `emotion_data.get`. -/
def enhancedParallelTasks (emotionResult : TaskResult) : Except String (List (String × String)) :=
  let contentTasks :=
    if emotionResult.success then [("content_recommendation", "content_recall_agent")] else []
  match enhancedEmotionData emotionResult with
  | Except.error e => Except.error e
  | Except.ok emotionData =>
    let intensity := emotionData.intensity.getD 0
    let therapyTasks :=
      if intensity > 6/10 then [("therapy_suggestion", "therapy_tips_agent")] else []
    Except.ok (contentTasks ++ therapyTasks)

/-- `_execute_enhanced_chat_flow` (lines 215-319): emotion analysis, the
parallel group (gathered in dispatch order), then the duck response;
`final_output` built as in the basic flow with the enhanced extras. -/
def executeEnhancedChatFlow (execTask : String → String → TaskResult) :
    Except String WorkflowResult :=
  let emotionResult := execTask "emotion_analysis" "listener_agent"
  match enhancedParallelTasks emotionResult with
  | Except.error e => Except.error e
  | Except.ok parallel =>
    let parallelResults := parallel.map (fun p => execTask p.1 p.2)
    let duckResult := execTask "duck_response_generation" "duck_style_agent"
    let taskResults := emotionResult :: parallelResults ++ [duckResult]
    match (if duckResult.success then
        match duckResult.data with
        | some d =>
          Except.ok (some
            { response_text := d.text.getD ""
              emotion_analysis := if emotionResult.success then emotionResult.data else none
              content_recommendations := none
              therapy_suggestions := none
              workflow_type := "enhanced_chat" })
        | none => Except.error "AttributeError: 'NoneType' object has no attribute 'get'"
      else Except.ok none) with
    | Except.error e => Except.error e
    | Except.ok finalOutput =>
      Except.ok
        { workflow_name := "enhanced_chat_flow"
          status := WorkflowStatus.running
          task_results := taskResults
          total_execution_time_ms := 0
          success_rate := 0
          final_output := finalOutput
          error := none }

/-- `_execute_daily_report_flow` (lines 321-339): unimplemented, returns a
fixed failed result. -/
def executeDailyReportFlow : Except String WorkflowResult :=
  Except.ok
    { workflow_name := "daily_report_flow"
      status := WorkflowStatus.failed
      task_results := []
      total_execution_time_ms := 0
      success_rate := 0
      final_output := none
      error := some "Report agent not yet implemented" }

/-- The workflow configuration dict returned by
`config_loader.get_workflow`; only the `name` key is read (by the generic
executor). -/
structure WorkflowConfig where
  name : Option String

/-- `_execute_generic_workflow` (lines 341-360): unimplemented, returns a
fixed failed result named after the configuration. -/
def executeGenericWorkflow (cfg : WorkflowConfig) : Except String WorkflowResult :=
  Except.ok
    { workflow_name := cfg.name.getD "unknown"
      status := WorkflowStatus.failed
      task_results := []
      total_execution_time_ms := 0
      success_rate := 0
      final_output := none
      error := some "Generic workflow executor not yet implemented" }

/-- The metric/status aggregation of `execute_workflow` (lines 126-141):
`success_rate` is the fraction of successful task results (`0` for an empty
list), `status` is `COMPLETED` at rate `1.0`, `PARTIALLY_COMPLETED` above
`0.5`, `FAILED` otherwise. -/
def workflowMetrics (elapsed : ℤ) (result : WorkflowResult) : WorkflowResult :=
  let successCount := (result.task_results.filter (fun t => t.success)).length
  let successRate : ℚ :=
    if result.task_results = [] then 0
    else (successCount : ℚ) / (result.task_results.length : ℚ)
  let status :=
    if successRate = 1 then WorkflowStatus.completed
    else if successRate > 1/2 then WorkflowStatus.partiallyCompleted
    else WorkflowStatus.failed
  { result with
    total_execution_time_ms := elapsed
    success_rate := successRate
    status := status }

/-- The body of `CrewManager.execute_workflow` (lines 107-144) up to and
including the aggregation: configuration lookup (raising `ValueError` on an
unknown name), dispatch to the named flow, then metrics. -/
def executeWorkflowBody (getWorkflow : String → Option WorkflowConfig)
    (execTask : String → String → TaskResult) (workflowName : String) (elapsed : ℤ) :
    Except String WorkflowResult :=
  match getWorkflow workflowName with
  | none => Except.error ("Workflow '" ++ workflowName ++ "' not found")
  | some cfg =>
    match (if workflowName = "basic_chat_flow" then executeBasicChatFlow execTask
        else if workflowName = "enhanced_chat_flow" then executeEnhancedChatFlow execTask
        else if workflowName = "daily_report_flow" then executeDailyReportFlow
        else executeGenericWorkflow cfg) with
    | Except.error e => Except.error e
    | Except.ok result => Except.ok (workflowMetrics elapsed result)

/-- `CrewManager.execute_workflow` (lines 88-155): the whole body runs inside
`try/except Exception`, so every exception — including the unknown-workflow
`ValueError` — is converted into a `FAILED` `WorkflowResult` with an empty
task list. -/
def executeWorkflowCore (getWorkflow : String → Option WorkflowConfig)
    (execTask : String → String → TaskResult) (workflowName : String) (elapsed : ℤ) :
    WorkflowResult :=
  match executeWorkflowBody getWorkflow execTask workflowName elapsed with
  | Except.ok r => r
  | Except.error e =>
    { workflow_name := workflowName
      status := WorkflowStatus.failed
      task_results := []
      total_execution_time_ms := elapsed
      success_rate := 0
      final_output := none
      error := some e }

/-- The transport-layer view of `execute_workflow`: an uncaught exception
would surface as `Except.error`; since the source catches everything, the
call always returns `Except.ok`. -/
def executeWorkflow (getWorkflow : String → Option WorkflowConfig)
    (execTask : String → String → TaskResult) (workflowName : String) (elapsed : ℤ) :
    Except String WorkflowResult :=
  Except.ok (executeWorkflowCore getWorkflow execTask workflowName elapsed)

/-- Helper: the aggregation step of `execute_workflow` satisfies the
success-rate/status invariant. -/
theorem workflowMetrics_props (elapsed : ℤ) (r0 : WorkflowResult) :
    ((workflowMetrics elapsed r0).success_rate =
      if (workflowMetrics elapsed r0).task_results.length = 0 then 0
      else (((workflowMetrics elapsed r0).task_results.filter (fun t => t.success)).length : ℚ) /
        ((workflowMetrics elapsed r0).task_results.length : ℚ))
    ∧ ((workflowMetrics elapsed r0).status = WorkflowStatus.completed ↔
        (workflowMetrics elapsed r0).success_rate = 1)
    ∧ ((workflowMetrics elapsed r0).status = WorkflowStatus.failed ↔
        (workflowMetrics elapsed r0).success_rate ≤ 1/2)
    ∧ ((workflowMetrics elapsed r0).status ≠ WorkflowStatus.completed →
        (workflowMetrics elapsed r0).status ≠ WorkflowStatus.failed →
        (workflowMetrics elapsed r0).status = WorkflowStatus.partiallyCompleted) := by
  have htasks : (workflowMetrics elapsed r0).task_results = r0.task_results := rfl
  have hsr : (workflowMetrics elapsed r0).success_rate =
      (if r0.task_results = [] then (0 : ℚ)
       else (((r0.task_results.filter (fun t => t.success)).length : ℚ) /
         (r0.task_results.length : ℚ))) := rfl
  have hst : (workflowMetrics elapsed r0).status =
      (if (if r0.task_results = [] then (0 : ℚ)
            else (((r0.task_results.filter (fun t => t.success)).length : ℚ) /
              (r0.task_results.length : ℚ))) = 1 then WorkflowStatus.completed
       else if (if r0.task_results = [] then (0 : ℚ)
            else (((r0.task_results.filter (fun t => t.success)).length : ℚ) /
              (r0.task_results.length : ℚ))) > 1/2 then WorkflowStatus.partiallyCompleted
       else WorkflowStatus.failed) := rfl
  rw [htasks, hsr, hst]
  set rate : ℚ := if r0.task_results = [] then (0 : ℚ)
    else (((r0.task_results.filter (fun t => t.success)).length : ℚ) /
      (r0.task_results.length : ℚ)) with hrdef
  constructor
  · by_cases hL : r0.task_results = []
    · rw [hrdef, if_pos hL, hL]
      simp
    · have hlen : ¬ (r0.task_results.length = 0) := fun hx => hL (List.length_eq_zero.mp hx)
      rw [hrdef, if_neg hL, if_neg hlen]
  · by_cases h1 : rate = 1
    · rw [if_pos h1]
      exact ⟨iff_of_true rfl h1,
        iff_of_false (by decide) (fun hle => by rw [h1] at hle; norm_num at hle),
        fun hc _ => absurd rfl hc⟩
    · rw [if_neg h1]
      by_cases h2 : rate > 1/2
      · rw [if_pos h2]
        exact ⟨iff_of_false (by decide) h1, iff_of_false (by decide) (not_le.mpr h2),
          fun _ _ => rfl⟩
      · rw [if_neg h2]
        exact ⟨iff_of_false (by decide) h1, iff_of_true rfl (not_lt.mp h2),
          fun _ hf => absurd rfl hf⟩

/-- C1: every `WorkflowResult` returned by `execute_workflow` has
`success_rate` equal to the success fraction of its task results (0 when
there are none), and its status is `COMPLETED` exactly at rate 1.0, `FAILED`
exactly at rate at most 0.5, and `PARTIALLY_COMPLETED` otherwise. -/
theorem executeWorkflow_successRate_status (getWorkflow : String → Option WorkflowConfig)
    (execTask : String → String → TaskResult) (workflowName : String) (elapsed : ℤ)
    (r : WorkflowResult)
    (h : executeWorkflow getWorkflow execTask workflowName elapsed = Except.ok r) :
    (r.success_rate = if r.task_results.length = 0 then 0
      else ((r.task_results.filter (fun t => t.success)).length : ℚ) / (r.task_results.length : ℚ))
    ∧ (r.status = WorkflowStatus.completed ↔ r.success_rate = 1)
    ∧ (r.status = WorkflowStatus.failed ↔ r.success_rate ≤ 1/2)
    ∧ (r.status ≠ WorkflowStatus.completed → r.status ≠ WorkflowStatus.failed →
        r.status = WorkflowStatus.partiallyCompleted) := by
  unfold executeWorkflow at h
  injection h with h1
  subst h1
  unfold executeWorkflowCore
  cases hbody : executeWorkflowBody getWorkflow execTask workflowName elapsed with
  | error e =>
    refine ⟨by norm_num, iff_of_false (by intro hx; simp at hx) (by norm_num),
      iff_of_true rfl (by norm_num), ?_⟩
    intro _ hf
    exact absurd rfl hf
  | ok r0 =>
    simp only
    obtain ⟨res, hres⟩ : ∃ res, r0 = workflowMetrics elapsed res := by
      unfold executeWorkflowBody at hbody
      cases hg : getWorkflow workflowName with
      | none => rw [hg] at hbody; simp at hbody
      | some cfg =>
        rw [hg] at hbody
        simp only at hbody
        cases hf : (if workflowName = "basic_chat_flow" then executeBasicChatFlow execTask
            else if workflowName = "enhanced_chat_flow" then executeEnhancedChatFlow execTask
            else if workflowName = "daily_report_flow" then executeDailyReportFlow
            else executeGenericWorkflow cfg) with
        | error e => rw [hf] at hbody; simp at hbody
        | ok result =>
          rw [hf] at hbody
          simp only at hbody
          exact ⟨result, (Except.ok.inj hbody).symm⟩
    rw [hres]
    exact workflowMetrics_props elapsed res

/-- Witness for C1 at a concrete execution: the daily-report workflow returns
a result with no task results, and the status/rate biconditional holds
there. -/
theorem executeWorkflow_successRate_status_witness :
    (executeWorkflowCore (fun _ => some ⟨some "w"⟩)
        (fun tn an => ⟨tn, true, some Payload.empty, none, 0, an, none⟩)
        "daily_report_flow" 7).status = WorkflowStatus.failed
    ↔ (executeWorkflowCore (fun _ => some ⟨some "w"⟩)
        (fun tn an => ⟨tn, true, some Payload.empty, none, 0, an, none⟩)
        "daily_report_flow" 7).success_rate ≤ 1/2 :=
  (executeWorkflow_successRate_status (fun _ => some ⟨some "w"⟩)
    (fun tn an => ⟨tn, true, some Payload.empty, none, 0, an, none⟩)
    "daily_report_flow" 7 _ rfl).2.2.1

/-- C7 counterexample: with no configured workflow, `execute_workflow` at an
unknown workflow name returns a `WorkflowResult` value (an `Except.ok` at the
transport boundary) carrying the error message — it does not propagate the
`ValueError` as a thrown error. -/
theorem executeWorkflow_unknown_name_returns_value :
    executeWorkflow (fun _ => none)
      (fun tn an => ⟨tn, true, some Payload.empty, none, 0, an, none⟩) "missing_flow" 3 =
    Except.ok
      { workflow_name := "missing_flow"
        status := WorkflowStatus.failed
        task_results := []
        total_execution_time_ms := 3
        success_rate := 0
        final_output := none
        error := some "Workflow 'missing_flow' not found" } := rfl

/-- C7 amended: when the workflow name has no configuration, the
`ValueError` is caught inside `execute_workflow` and returned as a `FAILED`
`WorkflowResult` with an empty task list, zero success rate, and the error
message; nothing is thrown to the transport layer. -/
theorem executeWorkflow_unknown_name_failed_result (getWorkflow : String → Option WorkflowConfig)
    (execTask : String → String → TaskResult) (workflowName : String) (elapsed : ℤ)
    (h : getWorkflow workflowName = none) :
    executeWorkflow getWorkflow execTask workflowName elapsed =
      Except.ok
        { workflow_name := workflowName
          status := WorkflowStatus.failed
          task_results := []
          total_execution_time_ms := elapsed
          success_rate := 0
          final_output := none
          error := some ("Workflow '" ++ workflowName ++ "' not found") } := by
  unfold executeWorkflow executeWorkflowCore executeWorkflowBody
  simp only [h]

/-- Witness for the amended C7 at a concrete unknown name. -/
theorem executeWorkflow_unknown_name_failed_result_witness :
    executeWorkflow (fun _ => none)
      (fun tn an => ⟨tn, false, none, none, 0, an, none⟩) "nope" 11 =
    Except.ok
      { workflow_name := "nope"
        status := WorkflowStatus.failed
        task_results := []
        total_execution_time_ms := 11
        success_rate := 0
        final_output := none
        error := some ("Workflow '" ++ "nope" ++ "' not found") } :=
  executeWorkflow_unknown_name_failed_result (fun _ => none)
    (fun tn an => ⟨tn, false, none, none, 0, an, none⟩) "nope" 11 rfl

/-- Helper for C6: under the structural hypothesis that a successful emotion
step carries a data dict, the parallel dispatch computation succeeds and
produces exactly the dispatch list. -/
theorem enhancedParallelTasks_eq (er : TaskResult)
    (hdata : er.success = true → er.data.isSome) :
    enhancedParallelTasks er = Except.ok (enhancedDispatchList er) := by
  unfold enhancedParallelTasks enhancedEmotionData enhancedDispatchList enhancedIntensity
  by_cases hs : er.success = true
  · obtain ⟨d, hd⟩ := Option.isSome_iff_exists.mp (hdata hs)
    simp only [hs, eq_self_iff_true, if_true, hd, Option.getD_some]
  · have hs' : er.success = false := by
      revert hs
      cases er.success <;> simp
    simp [hs', Payload.empty]

/-- C6: in `enhanced_chat_flow`, the content-recommendation step is
dispatched exactly when the emotion-analysis step succeeded, and the
therapy-suggestion step exactly when the intensity read from the emotion data
is strictly greater than 0.6; the flow's task list is the emotion result,
the dispatched parallel results in order, then the duck result. -/
theorem enhancedChatFlow_dispatch (execTask : String → String → TaskResult)
    (hdata : (execTask "emotion_analysis" "listener_agent").success = true →
      (execTask "emotion_analysis" "listener_agent").data.isSome)
    (hduck : (execTask "duck_response_generation" "duck_style_agent").success = true →
      (execTask "duck_response_generation" "duck_style_agent").data.isSome) :
    enhancedParallelTasks (execTask "emotion_analysis" "listener_agent") =
      Except.ok (enhancedDispatchList (execTask "emotion_analysis" "listener_agent"))
    ∧ (("content_recommendation", "content_recall_agent") ∈
        enhancedDispatchList (execTask "emotion_analysis" "listener_agent") ↔
        (execTask "emotion_analysis" "listener_agent").success = true)
    ∧ (("therapy_suggestion", "therapy_tips_agent") ∈
        enhancedDispatchList (execTask "emotion_analysis" "listener_agent") ↔
        enhancedIntensity (execTask "emotion_analysis" "listener_agent") > 6/10)
    ∧ ∃ r, executeEnhancedChatFlow execTask = Except.ok r ∧
        r.task_results = execTask "emotion_analysis" "listener_agent" ::
          (enhancedDispatchList (execTask "emotion_analysis" "listener_agent")).map
            (fun p => execTask p.1 p.2)
          ++ [execTask "duck_response_generation" "duck_style_agent"] := by
  have hA := enhancedParallelTasks_eq (execTask "emotion_analysis" "listener_agent") hdata
  refine ⟨hA, ?_, ?_, ?_⟩
  · by_cases hs : (execTask "emotion_analysis" "listener_agent").success = true
    · refine iff_of_true ?_ hs
      unfold enhancedDispatchList
      simp [hs]
    · refine iff_of_false ?_ hs
      unfold enhancedDispatchList
      intro hmem
      rw [if_neg hs] at hmem
      by_cases hc : enhancedIntensity (execTask "emotion_analysis" "listener_agent") > 6/10
      · rw [if_pos hc] at hmem
        simp at hmem
      · rw [if_neg hc] at hmem
        simp at hmem
  · by_cases hc : enhancedIntensity (execTask "emotion_analysis" "listener_agent") > 6/10
    · refine iff_of_true ?_ hc
      unfold enhancedDispatchList
      rw [if_pos hc]
      exact List.mem_append.mpr (Or.inr (by simp))
    · refine iff_of_false ?_ hc
      unfold enhancedDispatchList
      intro hmem
      rw [if_neg hc] at hmem
      by_cases hs : (execTask "emotion_analysis" "listener_agent").success = true
      · rw [if_pos hs] at hmem
        simp at hmem
      · rw [if_neg hs] at hmem
        simp at hmem
  · simp only [executeEnhancedChatFlow]
    rw [hA]
    by_cases hds : (execTask "duck_response_generation" "duck_style_agent").success = true
    · obtain ⟨d, hd⟩ := Option.isSome_iff_exists.mp (hduck hds)
      simp only [hds, eq_self_iff_true, if_true, hd]
      exact ⟨_, rfl, rfl⟩
    · have hds' : (execTask "duck_response_generation" "duck_style_agent").success = false := by
        revert hds
        cases (execTask "duck_response_generation" "duck_style_agent").success <;> simp
      simp only [hds', Bool.false_eq_true, if_false]
      exact ⟨_, rfl, rfl⟩

/-- Witness for C6: with emotion intensity 0.75 the therapy-suggestion step is
dispatched (and content recommendation too); with 0.4 therapy is not
dispatched while content recommendation still is. -/
theorem enhancedChatFlow_dispatch_witness :
    ("therapy_suggestion", "therapy_tips_agent") ∈
      enhancedDispatchList ((fun tn an =>
        if tn = "emotion_analysis" then
          (⟨tn, true, some { Payload.empty with intensity := some (3/4) }, none, 0, an, none⟩ : TaskResult)
        else ⟨tn, true, some Payload.empty, none, 0, an, none⟩) "emotion_analysis" "listener_agent")
    ∧ ("content_recommendation", "content_recall_agent") ∈
      enhancedDispatchList ((fun tn an =>
        if tn = "emotion_analysis" then
          (⟨tn, true, some { Payload.empty with intensity := some (3/4) }, none, 0, an, none⟩ : TaskResult)
        else ⟨tn, true, some Payload.empty, none, 0, an, none⟩) "emotion_analysis" "listener_agent")
    ∧ ("therapy_suggestion", "therapy_tips_agent") ∉
      enhancedDispatchList ((fun tn an =>
        if tn = "emotion_analysis" then
          (⟨tn, true, some { Payload.empty with intensity := some (2/5) }, none, 0, an, none⟩ : TaskResult)
        else ⟨tn, true, some Payload.empty, none, 0, an, none⟩) "emotion_analysis" "listener_agent")
    ∧ ("content_recommendation", "content_recall_agent") ∈
      enhancedDispatchList ((fun tn an =>
        if tn = "emotion_analysis" then
          (⟨tn, true, some { Payload.empty with intensity := some (2/5) }, none, 0, an, none⟩ : TaskResult)
        else ⟨tn, true, some Payload.empty, none, 0, an, none⟩) "emotion_analysis" "listener_agent") := by
  have h1 := enhancedChatFlow_dispatch (fun tn an =>
    if tn = "emotion_analysis" then
      (⟨tn, true, some { Payload.empty with intensity := some (3/4) }, none, 0, an, none⟩ : TaskResult)
    else ⟨tn, true, some Payload.empty, none, 0, an, none⟩)
    (fun _ => by decide) (fun _ => by decide)
  have h2 := enhancedChatFlow_dispatch (fun tn an =>
    if tn = "emotion_analysis" then
      (⟨tn, true, some { Payload.empty with intensity := some (2/5) }, none, 0, an, none⟩ : TaskResult)
    else ⟨tn, true, some Payload.empty, none, 0, an, none⟩)
    (fun _ => by decide) (fun _ => by decide)
  refine ⟨h1.2.2.1.mpr ?_, h1.2.1.mpr (by decide), ?_, h2.2.1.mpr (by decide)⟩
  · show enhancedIntensity _ > 6/10
    norm_num [enhancedIntensity, Payload.empty]
  · intro hmem
    have := h2.2.2.1.mp hmem
    norm_num [enhancedIntensity, Payload.empty] at this

/-- Witness for C5 at a concrete configuration, input text and model parse:
the merged intensity dominates the model value 0.7 and the rule value, the
merged urgency dominates the model value 2, and the union memberships hold. -/
theorem parseAndEnhanceMerge_monotone_witness :
    let cfgW : ListenerConfig :=
      { emotion_keywords := [("悲伤", ["难过"])]
        positive_indicators := []
        negative_indicators := ["难过"]
        default_intensity := 1/2
        punctuation_boost := []
        multiple_emotions_boost := 1/5
        max_intensity := 1
        urgency_normal := 1
        urgency_crisis := 4
        urgency_high := 3
        urgency_medium := 2
        crisis_keywords := []
        high_urgency_keywords := []
        confidence_level := 3/5
        default_emotions := ["平静"]
        default_topics := ["日常对话"]
        needs_mapping := []
        support_mapping := []
        processing_note := "Rule-based analysis (fallback)" }
    let pdW : ParsedData :=
      ⟨some "negative", some (7/10), some (4/5), some ["悲伤"], some [], some ["失落"],
        some [], some [], some 2, none⟩
    let merged := parseAndEnhanceMerge pdW (ruleBasedAnalysis cfgW "我很难过") "standard"
    (7/10 : ℚ) ≤ merged.intensity
    ∧ (ruleBasedAnalysis cfgW "我很难过").intensity ≤ merged.intensity
    ∧ (2 : ℤ) ≤ merged.urgency_level
    ∧ "悲伤" ∈ merged.primary_emotions
    ∧ "失落" ∈ merged.keywords := by
  intro cfgW pdW merged
  have h := parseAndEnhanceMerge_monotone cfgW "我很难过" "standard" pdW (7/10) 2
    ["悲伤"] ["失落"] rfl rfl rfl rfl
  exact ⟨h.1, h.2.1, h.2.2.1, h.2.2.2.2.1 "悲伤" (Or.inl (by simp)),
    h.2.2.2.2.2 "失落" (Or.inl (by simp))⟩
